import Mathlib

/-!
# HCAS roster cache (`src/app/sheets.js`, `src/app/router.js`)

A shallow embedding of the roster cache of the attendance service: the
credential step (`authorize`), the remote read (`fetchGoogleSheet`), the two
cache files (`loadCacheExpiry`, `loadCache`, `saveCache`, `clearCache`) and
the orchestration (`getNameList`), followed by the properties of the
specification that were checked against them.

## Conventions of the embedding

* Storage is explicit state (`Storage`), passed in and returned.
* Everything the code reads from outside the storage is a field of `Env`:
  the clock, the answer of the authorization exchange, the answer of the
  ranged read, whether a file write succeeds, the configuration.
* A promise is represented by the way it ends (`Outcome`): resolved with a
  value, rejected, never settled, or never settled because a callback threw
  outside every promise (an uncaught exception).
* A file's text is represented by what its reader parses out of it
  (`FileText`): `JSON.parse` and `moment` are library functions, and what
  they return for the text that `JSON.stringify` and `toISOString` wrote is
  taken from their documentation: the value again, except that an
  `undefined` array element is written as `null`.
* Instants are integer milliseconds; `toISOString` throws outside the range
  of `Date` (`inDateRange`).
* `fs.writeFile` only starts a write. A run (`Run`) holds the storage at the
  moment its promise settles, with the synchronous effects only, and the
  writes it has started (`started`); `land` is one such write finishing, with
  its callback, and `settle` lets all of them finish.
* `fs.mkdirSync` is taken to succeed.
-/

namespace HCAS

/-! ## Data model -/

/-- A JavaScript value, as far as this module handles one. -/
inductive JsVal where
  | undefined
  | null
  | bool (b : Bool)
  | num (n : Int)
  | str (s : String)
  | arr (items : List JsVal)
  | obj (fields : List (String × JsVal))

/-- An element of the array `rows.map(row => row[0])`: the first cell of a
row, or `undefined` (`none`) for a row without a first cell. -/
abbrev Entry := Option String

/-- An entry as a JavaScript value. -/
def Entry.toJs : Entry → JsVal
  | none => .undefined
  | some s => .str s

/-- What `JSON.parse(JSON.stringify(data))` holds at the place of an entry:
a string is kept, `undefined` inside an array is serialised as `null`. -/
def Entry.toJson : Entry → JsVal
  | none => .null
  | some s => .str s

/-- Text of a file, by what its reader makes of it: `malformed raw` is text
the parser of the reader rejects, `valid v` is text that parses to `v`. -/
inductive FileText (α : Type) where
  | malformed (raw : String)
  | valid (v : α)

/-- The durable files of the module: `token.json` under `JWT_TOKEN_PATH`,
`cache.json` and `cache.json.expiry` under `CACHE_FILE_PATH`. A file is
`none` when reading it fails (it does not exist). -/
structure Storage where
  tokenDir : Bool
  tokenFile : Option (FileText JsVal)
  cacheDir : Bool
  cacheFile : Option (FileText JsVal)
  expiryFile : Option (FileText Int)

/-- How a promise ends. `crashed` is a promise that is never settled because
a callback of `fs.readFile` or of the remote client threw: the exception is
thrown outside the promise and is uncaught. -/
inductive Outcome (α : Type) where
  | resolved (v : α)
  | rejected
  | pending
  | crashed

/-- The JWT client that `authorize` resolves with, with the credentials it
holds. -/
structure JwtClient where
  credentials : JsVal

/-- Answer of `sheets.spreadsheets.values.get`: an error, or a result whose
`data.values` is a list of rows of cells (`none` when the field is not
there). -/
inductive SheetsReply where
  | failed
  | ok (values : Option (List (List String)))

/-- Everything a call reads from outside the storage. -/
structure Env where
  /-- Value of `moment()` in `getNameList`. -/
  now : Int
  /-- Value of `moment()` in the callback of the payload write of `saveCache`. -/
  saveNow : Int
  /-- Value of `parseInt(process.env.CACHE_EXPIRE_TIME)`, `none` for `NaN`. -/
  cacheExpireEnv : Option Int
  /-- Answer of `jwtClient.authorize`: `none` for an error, or the token data. -/
  jwtAuthorize : Option JsVal
  /-- Answer of the ranged read for a client, a sheet id and a range. -/
  sheetsGet : JwtClient → String → String → SheetsReply
  youthSheetId : String
  youthRangeName : String
  tokenWriteOk : Bool
  cacheWriteOk : Bool
  expiryWriteOk : Bool

/-- What a call does that a caller can observe besides its result: the
functions of the module it enters, the remote calls and the file writes it
attempts. -/
inductive Call where
  | loadCacheExpiry
  | loadCache
  | authorize
  | jwtAuthorize
  | writeToken
  | fetchGoogleSheet
  | sheetsGet
  | saveCache
  | writeCache
  | writeExpiry
  deriving DecidableEq, Repr

/-- A file write that `fs.writeFile` has started and that has not finished:
of `token.json` (sheets.js 57), of `cache.json` (sheets.js 123), of
`cache.json.expiry` (sheets.js 131). -/
inductive DiskOp where
  | writeToken (tokenData : JsVal)
  | writeCache (data : List Entry)
  | writeExpiry (expiry : Int)

/-- A finished (or stuck) run: how the promise ended, the storage at that
moment, the calls made up to it, and the file writes started and still
under way. -/
structure Run (α : Type) where
  outcome : Outcome α
  fs : Storage
  calls : List Call
  started : List DiskOp

/-- The object `getNameList` resolves with. -/
structure Result where
  data : JsVal
  cached : Bool

/-- A moment object: a valid instant or an invalid date. -/
inductive Moment where
  | invalid
  | instant (ms : Int)

/-! ## Operations -/

/-- `parseInt(process.env.CACHE_EXPIRE_TIME) || 1`: `NaN` and `0` are falsy. -/
def CACHE_EXPIRE_TIME (env : Env) : Int :=
  match env.cacheExpireEnv with
  | none => 1
  | some n => if n = 0 then 1 else n

/-- Milliseconds in an hour, the unit of `moment().add(n, 'hour')`. -/
def msPerHour : Int := 3600000

/-- Largest time value of a `Date`, in milliseconds either side of the epoch. -/
def dateLimit : Int := 8640000000000000

/-- Whether an instant is a time value of `Date`: outside this range the
date is invalid and `toISOString` throws `RangeError`. -/
def inDateRange (ms : Int) : Bool :=
  decide (-dateLimit ≤ ms) && decide (ms ≤ dateLimit)

/-- `moment(text)`. -/
def moment : FileText Int → Moment
  | .malformed _ => .invalid
  | .valid ms => .instant ms

/-- `now.isBefore(m)`: false when `m` is invalid. -/
def isBefore (now : Int) : Moment → Bool
  | .invalid => false
  | .instant ms => decide (now < ms)

/-- `authorize` (sheets.js 35-76). After a successful exchange the write of
`token.json` is started and the promise resolves without waiting for it. -/
def authorize (env : Env) (fs : Storage) : Run JwtClient :=
  let fs1 : Storage := if fs.tokenDir then fs else { fs with tokenDir := true }
  match fs1.tokenFile with
  | none =>
    match env.jwtAuthorize with
    | none => ⟨.rejected, fs1, [.authorize, .jwtAuthorize], []⟩
    | some tokenData =>
      ⟨.resolved ⟨tokenData⟩, fs1, [.authorize, .jwtAuthorize, .writeToken],
        [.writeToken tokenData]⟩
  | some (.malformed _) => ⟨.crashed, fs1, [.authorize], []⟩
  | some (.valid tokenData) => ⟨.resolved ⟨tokenData⟩, fs1, [.authorize], []⟩

/-- `fetchGoogleSheet` (sheets.js 79-101). -/
def fetchGoogleSheet (env : Env) (jwtClient : JwtClient) (spreadsheetId rangeName : String)
    (fs : Storage) : Run (List Entry) :=
  match env.sheetsGet jwtClient spreadsheetId rangeName with
  | .failed => ⟨.resolved [], fs, [.fetchGoogleSheet, .sheetsGet], []⟩
  | .ok none => ⟨.crashed, fs, [.fetchGoogleSheet, .sheetsGet], []⟩
  | .ok (some rows) =>
    if rows.length ≠ 0 then
      ⟨.resolved (rows.map fun row => row.head?), fs, [.fetchGoogleSheet, .sheetsGet], []⟩
    else
      ⟨.pending, fs, [.fetchGoogleSheet, .sheetsGet], []⟩

/-- `loadCacheExpiry` (sheets.js 104-114): `none` is `null`. -/
def loadCacheExpiry (fs : Storage) : Option Moment :=
  match fs.expiryFile with
  | none => none
  | some data => some (moment data)

/-- `JSON.stringify(data)` for the array that `fetchGoogleSheet` resolves
with, as the text written to `cache.json`. -/
def stringify (data : List Entry) : FileText JsVal :=
  .valid (.arr (data.map Entry.toJson))

/-- `saveCache` (sheets.js 117-139), up to its return: the directory is
made, the write of `cache.json` is started. What its callback does is in
`land`. -/
def saveCache (data : List Entry) (fs : Storage) : Run Unit :=
  let fs1 : Storage := if fs.cacheDir then fs else { fs with cacheDir := true }
  ⟨.resolved (), fs1, [.saveCache, .writeCache], [.writeCache data]⟩

/-- A write that has finished: the storage after it and after its callback,
the writes and calls the callback made, and whether the callback threw. -/
structure Landed where
  fs : Storage
  started : List DiskOp
  calls : List Call
  threw : Bool

/-- One started write finishing, with its callback.
* `token.json` (sheets.js 57-62): a failure is logged.
* `cache.json` (sheets.js 123-138): a failure is logged; on success the
  expiry `moment().add(CACHE_EXPIRE_TIME, 'hour')` is computed and the write
  of its `toISOString()` to `cache.json.expiry` is started; `toISOString`
  throws when the expiry is outside the range of `Date`, and then no write
  is started.
* `cache.json.expiry` (sheets.js 131-136): a failure is logged. The path
  written is `cacheFile + '.expiry'`; the comment at sheets.js 130 names
  `app.json.expiry`. -/
def land (env : Env) (fs : Storage) : DiskOp → Landed
  | .writeToken tokenData =>
    if env.tokenWriteOk then
      ⟨{ fs with tokenFile := some (.valid tokenData) }, [], [], false⟩
    else
      ⟨fs, [], [], false⟩
  | .writeCache data =>
    if env.cacheWriteOk then
      let fs2 : Storage := { fs with cacheFile := some (stringify data) }
      let expiry : Int := env.saveNow + CACHE_EXPIRE_TIME env * msPerHour
      if inDateRange expiry then
        ⟨fs2, [.writeExpiry expiry], [.writeExpiry], false⟩
      else
        ⟨fs2, [], [], true⟩
    else
      ⟨fs, [], [], false⟩
  | .writeExpiry expiry =>
    if env.expiryWriteOk then
      ⟨{ fs with expiryFile := some (.valid expiry) }, [], [], false⟩
    else
      ⟨fs, [], [], false⟩

/-- The storage once writes have finished, the calls their callbacks made,
and whether one of them threw. -/
structure Settled where
  fs : Storage
  calls : List Call
  threw : Bool

/-- Writes whose callbacks start nothing further finish, in order. -/
def settleLast (env : Env) (fs : Storage) : List DiskOp → Settled
  | [] => ⟨fs, [], false⟩
  | op :: rest =>
    let l := land env fs op
    let s := settleLast env l.fs rest
    ⟨s.fs, l.calls ++ s.calls, l.threw || s.threw⟩

/-- All started writes finish, each followed by the write its callback
started. -/
def settle (env : Env) (fs : Storage) : List DiskOp → Settled
  | [] => ⟨fs, [], false⟩
  | op :: rest =>
    let l := land env fs op
    let inner := settleLast env l.fs l.started
    let s := settle env inner.fs rest
    ⟨s.fs, l.calls ++ inner.calls ++ s.calls, l.threw || inner.threw || s.threw⟩

/-- Error thrown by `fs.rmSync` on a path that does not exist. -/
inductive FsError where
  | ENOENT
  deriving DecidableEq, Repr

/-- A synchronous run: the storage left behind and the exception thrown,
if any. -/
structure SyncRun where
  fs : Storage
  thrown : Option FsError

/-- `clearCache` (sheets.js 141-144): two `fs.rmSync` calls without the
`force` option, the second reached only when the first returns. -/
def clearCache (fs : Storage) : SyncRun :=
  match fs.cacheFile with
  | none => ⟨fs, some .ENOENT⟩
  | some _ =>
    let fs1 : Storage := { fs with cacheFile := none }
    match fs1.expiryFile with
    | none => ⟨fs1, some .ENOENT⟩
    | some _ => ⟨{ fs1 with expiryFile := none }, none⟩

/-- What the handler of `GET /clear-cache` does: answers with the success
JSON, or lets the exception of `clearCache` escape before answering. -/
inductive ClearResponse where
  | success
  | escaped (e : FsError)
  deriving DecidableEq, Repr

/-- Handler of `GET /clear-cache` (router.js 113-118). -/
def clearCacheRoute (fs : Storage) : ClearResponse × Storage :=
  let r := clearCache fs
  match r.thrown with
  | some e => (.escaped e, r.fs)
  | none => (.success, r.fs)

/-- `loadCache` (sheets.js 147-160). -/
def loadCache (fs : Storage) : Outcome JsVal :=
  match fs.cacheFile with
  | none => .rejected
  | some (.malformed _) => .crashed
  | some (.valid data) => .resolved data

/-- The closure `fromCache` of `getNameList` (sheets.js 174-181). -/
def fromCache (fs : Storage) : Outcome Result :=
  match loadCache fs with
  | .resolved data => .resolved ⟨data, true⟩
  | .rejected => .resolved ⟨.arr [], true⟩
  | .pending => .pending
  | .crashed => .crashed

/-- The flag `isExpired` of `getNameList` (sheets.js 165-173). -/
def isExpired (now : Int) (cacheExpiry : Option Moment) : Bool :=
  match cacheExpiry with
  | none => true
  | some m => !(isBefore now m)

/-- `getNameList` (sheets.js 163-203). The promise resolves right after
`saveCache` returns, while the cache writes are still under way. -/
def getNameList (env : Env) (fs : Storage) : Run Result :=
  let cacheExpiry := loadCacheExpiry fs
  if !(isExpired env.now cacheExpiry) then
    ⟨fromCache fs, fs, [.loadCacheExpiry, .loadCache], []⟩
  else
    let a := authorize env fs
    match a.outcome with
    | .resolved jwtClient =>
      let f := fetchGoogleSheet env jwtClient env.youthSheetId env.youthRangeName a.fs
      match f.outcome with
      | .resolved responses =>
        if responses.length > 0 then
          let s := saveCache responses f.fs
          ⟨.resolved ⟨.arr (responses.map Entry.toJs), false⟩, s.fs,
            .loadCacheExpiry :: (a.calls ++ f.calls ++ s.calls),
            a.started ++ f.started ++ s.started⟩
        else
          ⟨.resolved ⟨.arr (responses.map Entry.toJs), false⟩, f.fs,
            .loadCacheExpiry :: (a.calls ++ f.calls), a.started ++ f.started⟩
      | .rejected =>
        ⟨.pending, f.fs, .loadCacheExpiry :: (a.calls ++ f.calls), a.started ++ f.started⟩
      | .pending =>
        ⟨.pending, f.fs, .loadCacheExpiry :: (a.calls ++ f.calls), a.started ++ f.started⟩
      | .crashed =>
        ⟨.crashed, f.fs, .loadCacheExpiry :: (a.calls ++ f.calls), a.started ++ f.started⟩
    | .rejected =>
      ⟨fromCache a.fs, a.fs, .loadCacheExpiry :: (a.calls ++ [.loadCache]), a.started⟩
    | .pending => ⟨.pending, a.fs, .loadCacheExpiry :: a.calls, a.started⟩
    | .crashed => ⟨.crashed, a.fs, .loadCacheExpiry :: a.calls, a.started⟩

/-- The storage once every write a run started has finished. -/
def Run.settled {α : Type} (env : Env) (r : Run α) : Settled :=
  settle env r.fs r.started

/-- Calls of `getNameList` made one after the other, each made once the
writes started by the call before it have finished. -/
def callsAfterWrites (fs : Storage) : List Env → List (Run Result)
  | [] => []
  | env :: rest =>
    getNameList env fs :: callsAfterWrites ((getNameList env fs).settled env).fs rest

/-- The sequence the specification describes for a successful ranged read:
the first value of each row that has one, rows without one left out. -/
def specFirstColumn (rows : List (List String)) : List String :=
  rows.filterMap fun row => row.head?

/-! ## Scenario data

The scenario of the specification: a time to live of one hour, a cache
written at `T0 = 0` with two names, calls at thirty and at ninety minutes. -/

/-- Storage after a cache write at `T0` with a time to live of one hour. -/
def scenarioFs : Storage :=
  { tokenDir := true
    tokenFile := some (.valid (.obj [("access_token", .str "t0")]))
    cacheDir := true
    cacheFile := some (.valid (.arr [.str "Alice", .str "Bob"]))
    expiryFile := some (.valid 3600000) }

/-- A remote service that answers the ranged read with `rows` and the
authorization exchange with a token, at clock reading `t`. -/
def remoteUp (t : Int) (rows : List (List String)) : Env :=
  { now := t
    saveNow := t
    cacheExpireEnv := some 1
    jwtAuthorize := some (.obj [("access_token", .str "t1")])
    sheetsGet := fun _ _ _ => .ok (some rows)
    youthSheetId := "sheet"
    youthRangeName := "Youth!A2:A"
    tokenWriteOk := true
    cacheWriteOk := true
    expiryWriteOk := true }

/-- A remote service that cannot be reached, at clock reading `t`: the
authorization exchange and every ranged read fail. -/
def remoteDown (t : Int) : Env :=
  { now := t
    saveNow := t
    cacheExpireEnv := some 1
    jwtAuthorize := none
    sheetsGet := fun _ _ _ => .failed
    youthSheetId := "sheet"
    youthRangeName := "Youth!A2:A"
    tokenWriteOk := true
    cacheWriteOk := true
    expiryWriteOk := true }

/-! ## Supporting lemmas -/

theorem isExpired_of_absent (now : Int) (fs : Storage) (h : fs.expiryFile = none) :
    isExpired now (loadCacheExpiry fs) = true := by
  simp [isExpired, loadCacheExpiry, h]

theorem isExpired_of_stale (now e : Int) (fs : Storage)
    (h : fs.expiryFile = some (.valid e)) (hle : e ≤ now) :
    isExpired now (loadCacheExpiry fs) = true := by
  simp [isExpired, loadCacheExpiry, h, moment, isBefore, hle]

theorem isExpired_of_fresh (now e : Int) (fs : Storage)
    (h : fs.expiryFile = some (.valid e)) (hlt : now < e) :
    isExpired now (loadCacheExpiry fs) = false := by
  simp [isExpired, loadCacheExpiry, h, moment, isBefore, hlt]

theorem authorize_cacheFile (env : Env) (fs : Storage) :
    (authorize env fs).fs.cacheFile = fs.cacheFile := by
  unfold authorize
  cases fs.tokenDir <;> simp only [] <;> split <;> (try split) <;> simp_all

theorem authorize_expiryFile (env : Env) (fs : Storage) :
    (authorize env fs).fs.expiryFile = fs.expiryFile := by
  unfold authorize
  cases fs.tokenDir <;> simp only [] <;> split <;> (try split) <;> simp_all

/-- How `authorize` comes to reject: no token file, and the exchange fails. -/
theorem authorize_rejected_iff (env : Env) (fs : Storage) :
    (authorize env fs).outcome = .rejected ↔ fs.tokenFile = none ∧ env.jwtAuthorize = none := by
  unfold authorize
  cases hd : fs.tokenDir <;> cases ht : fs.tokenFile <;> cases hj : env.jwtAuthorize <;>
    simp [ht] <;> (split <;> simp_all)

theorem authorize_calls_of_rejected (env : Env) (fs : Storage)
    (h : (authorize env fs).outcome = .rejected) :
    (authorize env fs).calls = [.authorize, .jwtAuthorize] := by
  obtain ⟨ht, hj⟩ := (authorize_rejected_iff env fs).1 h
  unfold authorize
  cases hd : fs.tokenDir <;> simp [ht, hj]

theorem authorize_started_of_rejected (env : Env) (fs : Storage)
    (h : (authorize env fs).outcome = .rejected) :
    (authorize env fs).started = [] := by
  obtain ⟨ht, hj⟩ := (authorize_rejected_iff env fs).1 h
  unfold authorize
  cases hd : fs.tokenDir <;> simp [ht, hj]

/-- The only write `authorize` can start is the one of `token.json`. -/
theorem authorize_started (env : Env) (fs : Storage) :
    (authorize env fs).started = [] ∨
      ∃ tokenData, (authorize env fs).started = [.writeToken tokenData] := by
  unfold authorize
  cases fs.tokenDir <;> simp only [] <;> split <;> (try split) <;> simp

/-- The calls of `authorize` never include the remote read or a cache write. -/
theorem authorize_calls_subset (env : Env) (fs : Storage) :
    ∀ c ∈ (authorize env fs).calls, c = .authorize ∨ c = .jwtAuthorize ∨ c = .writeToken := by
  unfold authorize
  cases fs.tokenDir <;> simp only [] <;> split <;> (try split) <;> simp

theorem fetchGoogleSheet_fs (env : Env) (c : JwtClient) (i r : String) (fs : Storage) :
    (fetchGoogleSheet env c i r fs).fs = fs := by
  unfold fetchGoogleSheet
  split <;> (try split) <;> rfl

theorem fetchGoogleSheet_calls (env : Env) (c : JwtClient) (i r : String) (fs : Storage) :
    (fetchGoogleSheet env c i r fs).calls = [.fetchGoogleSheet, .sheetsGet] := by
  unfold fetchGoogleSheet
  split <;> (try split) <;> rfl

theorem fetchGoogleSheet_started (env : Env) (c : JwtClient) (i r : String) (fs : Storage) :
    (fetchGoogleSheet env c i r fs).started = [] := by
  unfold fetchGoogleSheet
  split <;> (try split) <;> rfl

/-- The stale branch of `getNameList` when `authorize` rejects. -/
theorem getNameList_of_rejected (env : Env) (fs : Storage)
    (hexp : isExpired env.now (loadCacheExpiry fs) = true)
    (hauth : (authorize env fs).outcome = .rejected) :
    getNameList env fs =
      ⟨fromCache (authorize env fs).fs, (authorize env fs).fs,
        [.loadCacheExpiry, .authorize, .jwtAuthorize, .loadCache], []⟩ := by
  unfold getNameList
  simp [hexp, hauth, authorize_calls_of_rejected env fs hauth,
    authorize_started_of_rejected env fs hauth]

/-- The stale branch of `getNameList` when `authorize` and the fetch resolve. -/
theorem getNameList_of_fetched (env : Env) (fs : Storage) (c : JwtClient)
    (responses : List Entry)
    (hexp : isExpired env.now (loadCacheExpiry fs) = true)
    (hauth : (authorize env fs).outcome = .resolved c)
    (hfetch : (fetchGoogleSheet env c env.youthSheetId env.youthRangeName
      (authorize env fs).fs).outcome = .resolved responses) :
    getNameList env fs =
      if responses.length > 0 then
        ⟨.resolved ⟨.arr (responses.map Entry.toJs), false⟩,
          (saveCache responses (authorize env fs).fs).fs,
          .loadCacheExpiry :: ((authorize env fs).calls ++ [.fetchGoogleSheet, .sheetsGet] ++
            [.saveCache, .writeCache]),
          (authorize env fs).started ++ [.writeCache responses]⟩
      else
        ⟨.resolved ⟨.arr (responses.map Entry.toJs), false⟩, (authorize env fs).fs,
          .loadCacheExpiry :: ((authorize env fs).calls ++ [.fetchGoogleSheet, .sheetsGet]),
          (authorize env fs).started⟩ := by
  unfold getNameList
  simp [hexp, hauth, hfetch, fetchGoogleSheet_fs, fetchGoogleSheet_calls,
    fetchGoogleSheet_started, saveCache]

/-- The fresh branch of `getNameList` on a payload that parses. -/
theorem getNameList_of_fresh (env : Env) (fs : Storage) (e : Int) (p : JsVal)
    (he : fs.expiryFile = some (.valid e)) (hnow : env.now < e)
    (hp : fs.cacheFile = some (.valid p)) :
    getNameList env fs = ⟨.resolved ⟨p, true⟩, fs, [.loadCacheExpiry, .loadCache], []⟩ := by
  unfold getNameList
  simp [isExpired_of_fresh env.now e fs he hnow, fromCache, loadCache, hp]

/-- Calls made strictly before the stored expiry, one after the other, all
resolve from the cache and start no write. -/
theorem callsAfterWrites_fresh (fs : Storage) (e : Int) (p : JsVal)
    (he : fs.expiryFile = some (.valid e)) (hp : fs.cacheFile = some (.valid p)) :
    ∀ later : List Env, (∀ env ∈ later, env.now < e) →
      ∀ run ∈ callsAfterWrites fs later,
        run.outcome = .resolved ⟨p, true⟩ ∧ run.fs = fs ∧ run.started = [] := by
  intro later
  induction later with
  | nil => intro _ run hrun; simp [callsAfterWrites] at hrun
  | cons env rest ih =>
    intro hall run hrun
    have hrunEq := getNameList_of_fresh env fs e p he (hall env (List.mem_cons_self env rest)) hp
    simp only [callsAfterWrites, List.mem_cons] at hrun
    rcases hrun with h | h
    · rw [h, hrunEq]
      exact ⟨rfl, rfl, rfl⟩
    · rw [hrunEq] at h
      exact ih (fun x hx => hall x (List.mem_cons_of_mem env hx)) run h

/-- The writes of `authorize` finishing leave both cache files alone and
start no write of the expiry marker. -/
theorem settle_authorize_started (env : Env) (fs0 fs : Storage) :
    (settle env fs (authorize env fs0).started).fs.cacheFile = fs.cacheFile ∧
    (settle env fs (authorize env fs0).started).fs.expiryFile = fs.expiryFile ∧
    (settle env fs (authorize env fs0).started).calls = [] ∧
    (settle env fs (authorize env fs0).started).threw = false := by
  rcases authorize_started env fs0 with h | ⟨tokenData, h⟩
  · rw [h]
    exact ⟨rfl, rfl, rfl, rfl⟩
  · rw [h]
    cases hw : env.tokenWriteOk <;> simp [settle, settleLast, land, hw]

/-- The writes of a refresh finishing, when both cache writes succeed and
the expiry is a time value of `Date`. -/
theorem settle_refresh (env : Env) (fs0 fs : Storage) (data : List Entry)
    (hw1 : env.cacheWriteOk = true) (hw2 : env.expiryWriteOk = true)
    (hrange : inDateRange (env.saveNow + CACHE_EXPIRE_TIME env * msPerHour) = true) :
    (settle env fs ((authorize env fs0).started ++ [.writeCache data])).fs.cacheFile =
      some (stringify data) ∧
    (settle env fs ((authorize env fs0).started ++ [.writeCache data])).fs.expiryFile =
      some (.valid (env.saveNow + CACHE_EXPIRE_TIME env * msPerHour)) ∧
    (settle env fs ((authorize env fs0).started ++ [.writeCache data])).threw = false := by
  rcases authorize_started env fs0 with h | ⟨tokenData, h⟩
  · rw [h]
    simp [settle, settleLast, land, hw1, hw2, hrange]
  · rw [h]
    cases hw : env.tokenWriteOk <;> simp [settle, settleLast, land, hw, hw1, hw2, hrange]

theorem saveCache_fs_files (data : List Entry) (fs : Storage) :
    (saveCache data fs).fs.cacheFile = fs.cacheFile ∧
    (saveCache data fs).fs.expiryFile = fs.expiryFile := by
  unfold saveCache
  cases fs.cacheDir <;> exact ⟨rfl, rfl⟩

theorem map_toJs_names (names : List String) :
    (names.map some).map Entry.toJs = names.map JsVal.str := by
  simp [Function.comp_def, Entry.toJs]

theorem map_toJson_names (names : List String) :
    (names.map some).map Entry.toJson = names.map JsVal.str := by
  simp [Function.comp_def, Entry.toJson]

theorem authorize_count_fetch (env : Env) (fs : Storage) :
    (authorize env fs).calls.count Call.fetchGoogleSheet = 0 := by
  rw [List.count_eq_zero]
  intro hm
  rcases authorize_calls_subset env fs _ hm with h | h | h <;> cases h

theorem saveCache_count_fetch (data : List Entry) (fs : Storage) :
    (saveCache data fs).calls.count Call.fetchGoogleSheet = 0 := by
  unfold saveCache
  rfl

/-- A fresh call on a payload file that cannot be read defaults to the empty
roster without a refresh. -/
theorem getNameList_fresh_payload_missing (env : Env) (fs : Storage) (e : Int)
    (he : fs.expiryFile = some (.valid e)) (hnow : env.now < e)
    (hp : fs.cacheFile = none) :
    getNameList env fs =
      ⟨.resolved ⟨.arr [], true⟩, fs, [.loadCacheExpiry, .loadCache], []⟩ := by
  unfold getNameList
  simp [isExpired_of_fresh env.now e fs he hnow, fromCache, loadCache, hp]

/-! ## Claims -/

/-- C1: a call made strictly before the stored expiry, on a cache payload
that parses to `p`, resolves to the object with data `p` and `cached` true,
leaves the storage as it was, and enters only `loadCacheExpiry` and
`loadCache`: no `authorize`, no `fetchGoogleSheet`, no remote call and no
write to a cache file, started or finished. -/
theorem getNameList_fresh_serves_cache (env : Env) (fs : Storage) (e : Int) (p : JsVal)
    (he : fs.expiryFile = some (.valid e)) (hnow : env.now < e)
    (hp : fs.cacheFile = some (.valid p)) :
    (getNameList env fs).outcome = .resolved ⟨p, true⟩ ∧
    (getNameList env fs).fs = fs ∧
    (getNameList env fs).calls = [.loadCacheExpiry, .loadCache] ∧
    Call.authorize ∉ (getNameList env fs).calls ∧
    Call.jwtAuthorize ∉ (getNameList env fs).calls ∧
    Call.fetchGoogleSheet ∉ (getNameList env fs).calls ∧
    Call.sheetsGet ∉ (getNameList env fs).calls ∧
    Call.saveCache ∉ (getNameList env fs).calls ∧
    Call.writeCache ∉ (getNameList env fs).calls ∧
    Call.writeExpiry ∉ (getNameList env fs).calls ∧
    (getNameList env fs).started = [] := by
  rw [getNameList_of_fresh env fs e p he hnow hp]
  simp

/-- Witness of C1: the scenario call at thirty minutes. -/
theorem getNameList_fresh_serves_cache_witness :
    (getNameList (remoteDown 1800000) scenarioFs).outcome =
      .resolved ⟨.arr [.str "Alice", .str "Bob"], true⟩ ∧
    Call.fetchGoogleSheet ∉ (getNameList (remoteDown 1800000) scenarioFs).calls :=
  have h := getNameList_fresh_serves_cache (remoteDown 1800000) scenarioFs 3600000
    (.arr [.str "Alice", .str "Bob"]) rfl (by decide) rfl
  ⟨h.1, h.2.2.2.2.2.1⟩

/-- C2: on an expired cache (marker absent, or clock at or after the stored
expiry), when `authorize` rejects and the cache payload parses to `p`, the
call resolves to the object with data `p` and `cached` true; the remote read
is not made, no write is started and both cache files are what they were. -/
theorem getNameList_auth_rejected_serves_stale (env : Env) (fs : Storage) (p : JsVal)
    (hexp : fs.expiryFile = none ∨ ∃ e, fs.expiryFile = some (.valid e) ∧ e ≤ env.now)
    (hauth : (authorize env fs).outcome = .rejected)
    (hp : fs.cacheFile = some (.valid p)) :
    (getNameList env fs).outcome = .resolved ⟨p, true⟩ ∧
    (getNameList env fs).fs.cacheFile = fs.cacheFile ∧
    (getNameList env fs).fs.expiryFile = fs.expiryFile ∧
    Call.fetchGoogleSheet ∉ (getNameList env fs).calls ∧
    Call.saveCache ∉ (getNameList env fs).calls ∧
    Call.writeCache ∉ (getNameList env fs).calls ∧
    Call.writeExpiry ∉ (getNameList env fs).calls ∧
    (getNameList env fs).started = [] := by
  have hx : isExpired env.now (loadCacheExpiry fs) = true := by
    rcases hexp with h | ⟨e, h, hle⟩
    · exact isExpired_of_absent env.now fs h
    · exact isExpired_of_stale env.now e fs h hle
  rw [getNameList_of_rejected env fs hx hauth]
  simp [fromCache, loadCache, authorize_cacheFile, authorize_expiryFile, hp]

/-- Witness of C2: the scenario cache at ninety minutes, no token file and
the remote service down. -/
theorem getNameList_auth_rejected_serves_stale_witness :
    (getNameList (remoteDown 5400000) { scenarioFs with tokenFile := none }).outcome =
      .resolved ⟨.arr [.str "Alice", .str "Bob"], true⟩ :=
  (getNameList_auth_rejected_serves_stale (remoteDown 5400000)
    { scenarioFs with tokenFile := none } (.arr [.str "Alice", .str "Bob"])
    (Or.inr ⟨3600000, rfl, by decide⟩) rfl rfl).1

/-- C3: on an expired cache (the code's own test: marker absent, marker text
that does not parse, or clock at or after the stored expiry), when
`authorize` resolves and `fetchGoogleSheet` resolves with the empty sequence,
`saveCache` is not called and no cache file is written: the payload file and
the expiry marker are what they were, when the call resolves and once every
started write has finished, `loadCache` afterwards gives what it gave before,
and the call resolves to the object with data `[]` and `cached` false. -/
theorem getNameList_empty_fetch_keeps_cache (env : Env) (fs : Storage) (c : JwtClient)
    (hexp : isExpired env.now (loadCacheExpiry fs) = true)
    (hauth : (authorize env fs).outcome = .resolved c)
    (hfetch : (fetchGoogleSheet env c env.youthSheetId env.youthRangeName
      (authorize env fs).fs).outcome = .resolved []) :
    (getNameList env fs).outcome = .resolved ⟨.arr [], false⟩ ∧
    Call.saveCache ∉ (getNameList env fs).calls ∧
    Call.writeCache ∉ (getNameList env fs).calls ∧
    Call.writeExpiry ∉ (getNameList env fs).calls ∧
    (getNameList env fs).fs.cacheFile = fs.cacheFile ∧
    (getNameList env fs).fs.expiryFile = fs.expiryFile ∧
    loadCache (getNameList env fs).fs = loadCache fs ∧
    ((getNameList env fs).settled env).fs.cacheFile = fs.cacheFile ∧
    ((getNameList env fs).settled env).fs.expiryFile = fs.expiryFile ∧
    loadCache ((getNameList env fs).settled env).fs = loadCache fs ∧
    Call.writeExpiry ∉ ((getNameList env fs).settled env).calls := by
  have hsub := authorize_calls_subset env fs
  have hset := settle_authorize_started env fs (authorize env fs).fs
  have hc := authorize_cacheFile env fs
  have he := authorize_expiryFile env fs
  rw [getNameList_of_fetched env fs c [] hexp hauth hfetch]
  simp only [List.length_nil, gt_iff_lt, lt_self_iff_false, if_false, List.map_nil,
    Run.settled]
  refine ⟨trivial, ?_, ?_, ?_, hc, he, ?_, hset.1.trans hc, hset.2.1.trans he, ?_, ?_⟩
  · intro hm
    simp at hm
    rcases hsub _ hm with h | h | h <;> cases h
  · intro hm
    simp at hm
    rcases hsub _ hm with h | h | h <;> cases h
  · intro hm
    simp at hm
    rcases hsub _ hm with h | h | h <;> cases h
  · simp [loadCache, hc]
  · simp [loadCache, hset.1, hc]
  · rw [hset.2.2.1]
    simp

/-- Witness of C3: the scenario cache at ninety minutes, a token file on
disk and the ranged read failing. -/
theorem getNameList_empty_fetch_keeps_cache_witness :
    (getNameList (remoteDown 5400000) scenarioFs).outcome = .resolved ⟨.arr [], false⟩ ∧
    loadCache (getNameList (remoteDown 5400000) scenarioFs).fs = loadCache scenarioFs ∧
    (getNameList (remoteDown 5400000)
      { scenarioFs with expiryFile := some (.malformed "soon") }).outcome =
      .resolved ⟨.arr [], false⟩ :=
  have h := getNameList_empty_fetch_keeps_cache (remoteDown 5400000) scenarioFs
    ⟨.obj [("access_token", .str "t0")]⟩ rfl rfl rfl
  have h2 := getNameList_empty_fetch_keeps_cache (remoteDown 5400000)
    { scenarioFs with expiryFile := some (.malformed "soon") }
    ⟨.obj [("access_token", .str "t0")]⟩ rfl rfl rfl
  ⟨h.1, h.2.2.2.2.2.2.1, h2.1⟩


/-- C4, as stated, fails, at four inputs.
* A fetched sequence with an `undefined` entry (a row without a first cell)
  is not what a following call serves, even once both writes have finished
  and the expiry is a time value of `Date`: the entry is stored as `null`.
* A following call made as the refreshing call resolves, before the cache
  writes have finished, still reads the old marker and payload: here it
  refreshes again and resolves with `cached` false.
* With a configured time to live that takes the expiry outside the range of
  `Date`, `toISOString` throws in the callback and the old marker stays.
* With a configured time to live of `0` the stored expiry is one hour after
  the write, not zero hours. -/
theorem refresh_roundtrip_counterexample :
    (¬ ∀ (env : Env) (fs : Storage) (c : JwtClient) (s : List Entry),
        isExpired env.now (loadCacheExpiry fs) = true →
        (authorize env fs).outcome = .resolved c →
        (fetchGoogleSheet env c env.youthSheetId env.youthRangeName
          (authorize env fs).fs).outcome = .resolved s →
        s ≠ [] → env.cacheWriteOk = true → env.expiryWriteOk = true →
        inDateRange (env.saveNow + CACHE_EXPIRE_TIME env * msPerHour) = true →
        (getNameList env fs).outcome = .resolved ⟨.arr (s.map Entry.toJs), false⟩ ∧
        ((getNameList env fs).settled env).fs.expiryFile =
          some (.valid (env.saveNow + CACHE_EXPIRE_TIME env * msPerHour)) ∧
        ∀ later : Env, later.now < env.saveNow + CACHE_EXPIRE_TIME env * msPerHour →
          (getNameList later ((getNameList env fs).settled env).fs).outcome =
            .resolved ⟨.arr (s.map Entry.toJs), true⟩) ∧
    (getNameList (remoteDown 6000000)
      (getNameList (remoteUp 5400000 [["Alice"], ["Bob"], ["Carol"]]) scenarioFs).fs).outcome =
      .resolved ⟨.arr [], false⟩ ∧
    (((getNameList { remoteUp 5400000 [["Alice"]] with cacheExpireEnv := some 9999999999 }
        scenarioFs).settled
        { remoteUp 5400000 [["Alice"]] with cacheExpireEnv := some 9999999999 }).fs.expiryFile =
        some (.valid 3600000) ∧
      ((getNameList { remoteUp 5400000 [["Alice"]] with cacheExpireEnv := some 9999999999 }
        scenarioFs).settled
        { remoteUp 5400000 [["Alice"]] with cacheExpireEnv := some 9999999999 }).threw = true) ∧
    ((getNameList { remoteUp 5400000 [["Alice"]] with cacheExpireEnv := some 0 }
        scenarioFs).settled
        { remoteUp 5400000 [["Alice"]] with cacheExpireEnv := some 0 }).fs.expiryFile =
        some (.valid 9000000) := by
  refine ⟨?_, rfl, ⟨rfl, rfl⟩, rfl⟩
  intro h
  have h3 := (h (remoteUp 5400000 [["Alice"], []]) scenarioFs
    ⟨.obj [("access_token", .str "t0")]⟩ [some "Alice", none]
    rfl rfl rfl (by simp) rfl rfl rfl).2.2 (remoteDown 6000000) (by decide)
  have hcode : (getNameList (remoteDown 6000000)
      ((getNameList (remoteUp 5400000 [["Alice"], []]) scenarioFs).settled
        (remoteUp 5400000 [["Alice"], []])).fs).outcome =
      .resolved ⟨.arr [.str "Alice", .null], true⟩ := rfl
  rw [hcode] at h3
  simp [Entry.toJs] at h3

/-- C4, amended: when a refresh (expired cache, `authorize` and both cache
writes succeeding) fetches a non-empty sequence of name strings and the
expiry is a time value of `Date`, the call resolves to that sequence with
`cached` false; once the writes it started have finished, the stored expiry
is the clock reading of the payload write plus `CACHE_EXPIRE_TIME` hours (the
configured integer, or `1` when that is `0` or not a number), no callback has
thrown, and every following call made from then on, strictly before that
expiry, resolves to the same sequence, in the same order with duplicates
kept, with `cached` true. -/
theorem refresh_then_served_from_cache (env : Env) (fs : Storage) (c : JwtClient)
    (names : List String)
    (hexp : isExpired env.now (loadCacheExpiry fs) = true)
    (hauth : (authorize env fs).outcome = .resolved c)
    (hfetch : (fetchGoogleSheet env c env.youthSheetId env.youthRangeName
      (authorize env fs).fs).outcome = .resolved (names.map some))
    (hne : names ≠ []) (hw1 : env.cacheWriteOk = true) (hw2 : env.expiryWriteOk = true)
    (hrange : inDateRange (env.saveNow + CACHE_EXPIRE_TIME env * msPerHour) = true) :
    (getNameList env fs).outcome = .resolved ⟨.arr (names.map JsVal.str), false⟩ ∧
    ((getNameList env fs).settled env).fs.expiryFile =
      some (.valid (env.saveNow + CACHE_EXPIRE_TIME env * msPerHour)) ∧
    ((getNameList env fs).settled env).threw = false ∧
    ∀ later : List Env,
      (∀ e ∈ later, e.now < env.saveNow + CACHE_EXPIRE_TIME env * msPerHour) →
      ∀ run ∈ callsAfterWrites ((getNameList env fs).settled env).fs later,
        run.outcome = .resolved ⟨.arr (names.map JsVal.str), true⟩ := by
  have hlen : (names.map some).length > 0 := by
    cases names with
    | nil => exact absurd rfl hne
    | cons a t => simp
  have hset := settle_refresh env fs (saveCache (names.map some) (authorize env fs).fs).fs
    (names.map some) hw1 hw2 hrange
  rw [getNameList_of_fetched env fs c (names.map some) hexp hauth hfetch, if_pos hlen]
  simp only [Run.settled]
  refine ⟨by rw [map_toJs_names], hset.2.1, hset.2.2, ?_⟩
  intro later hall run hrun
  have hp : (settle env (saveCache (names.map some) (authorize env fs).fs).fs
      ((authorize env fs).started ++ [.writeCache (names.map some)])).fs.cacheFile =
      some (.valid (.arr (names.map JsVal.str))) := by
    rw [hset.1, stringify, map_toJson_names]
  exact (callsAfterWrites_fresh _ _ _ hset.2.1 hp later hall run hrun).1

/-- Witness of C4, amended: time to live one hour, a refresh at ninety
minutes fetching three names; once the writes have finished the expiry is one
hundred and fifty minutes and a call at one hundred minutes is served from
the cache. -/
theorem refresh_then_served_from_cache_witness :
    (getNameList (remoteUp 5400000 [["Alice"], ["Bob"], ["Carol"]]) scenarioFs).outcome =
      .resolved ⟨.arr [.str "Alice", .str "Bob", .str "Carol"], false⟩ ∧
    ((getNameList (remoteUp 5400000 [["Alice"], ["Bob"], ["Carol"]]) scenarioFs).settled
      (remoteUp 5400000 [["Alice"], ["Bob"], ["Carol"]])).fs.expiryFile =
      some (.valid 9000000) ∧
    (getNameList (remoteDown 6000000)
      ((getNameList (remoteUp 5400000 [["Alice"], ["Bob"], ["Carol"]]) scenarioFs).settled
        (remoteUp 5400000 [["Alice"], ["Bob"], ["Carol"]])).fs).outcome =
      .resolved ⟨.arr [.str "Alice", .str "Bob", .str "Carol"], true⟩ :=
  have h := refresh_then_served_from_cache (remoteUp 5400000 [["Alice"], ["Bob"], ["Carol"]])
    scenarioFs ⟨.obj [("access_token", .str "t0")]⟩ ["Alice", "Bob", "Carol"]
    rfl rfl rfl (by simp) rfl rfl rfl
  ⟨h.1, h.2.1, h.2.2.2 [remoteDown 6000000] (by decide) _ (List.mem_cons_self _ _)⟩

/-- C5, as stated, fails: at or after the stored expiry, with no token file
and the authorization exchange failing, the remote fetch is not invoked. -/
theorem fetch_once_counterexample :
    ¬ (∀ (env : Env) (fs : Storage) (e : Int),
        fs.expiryFile = some (.valid e) → e ≤ env.now →
        (getNameList env fs).calls.count Call.fetchGoogleSheet = 1) := by
  intro h
  have h1 := h (remoteDown 5400000) { scenarioFs with tokenFile := none } 3600000 rfl
    (by decide)
  have hcode : (getNameList (remoteDown 5400000) { scenarioFs with tokenFile := none }).calls =
      [.loadCacheExpiry, .authorize, .jwtAuthorize, .loadCache] := rfl
  rw [hcode] at h1
  revert h1
  decide

/-- C5, amended: for a call made at or after the stored expiry,
`fetchGoogleSheet` is invoked exactly once when `authorize` resolves, and not
at all when `authorize` rejects. -/
theorem fetch_once_when_authorized (env : Env) (fs : Storage) (e : Int)
    (he : fs.expiryFile = some (.valid e)) (hle : e ≤ env.now) :
    (∀ c, (authorize env fs).outcome = .resolved c →
      (getNameList env fs).calls.count Call.fetchGoogleSheet = 1) ∧
    ((authorize env fs).outcome = .rejected →
      (getNameList env fs).calls.count Call.fetchGoogleSheet = 0) := by
  have hx := isExpired_of_stale env.now e fs he hle
  constructor
  · intro c hauth
    have ha := authorize_count_fetch env fs
    have hf := fetchGoogleSheet_calls env c env.youthSheetId env.youthRangeName
      (authorize env fs).fs
    unfold getNameList
    simp only [hx, hauth, Bool.not_true, Bool.false_eq_true, if_false]
    split
    · split
      · simp [List.count_cons, List.count_append, ha, hf, saveCache_count_fetch]
      · simp [List.count_cons, List.count_append, ha, hf]
    · simp [List.count_cons, List.count_append, ha, hf]
    · simp [List.count_cons, List.count_append, ha, hf]
    · simp [List.count_cons, List.count_append, ha, hf]
  · intro hauth
    rw [getNameList_of_rejected env fs hx hauth]
    rfl

/-- Witness of C5, amended: the scenario cache at ninety minutes with the
remote service answering. -/
theorem fetch_once_when_authorized_witness :
    (getNameList (remoteUp 5400000 [["Alice"], ["Bob"], ["Carol"]]) scenarioFs).calls.count
      Call.fetchGoogleSheet = 1 :=
  (fetch_once_when_authorized (remoteUp 5400000 [["Alice"], ["Bob"], ["Carol"]]) scenarioFs
    3600000 rfl (by decide)).1 ⟨.obj [("access_token", .str "t0")]⟩ rfl

/-- C6, at the failing input: with the expiry marker on disk and the payload
file missing, `clearCache` throws at its first deletion, the marker is still
there afterwards, and the handler of `GET /clear-cache` lets the exception
escape instead of answering. With only the payload file on disk the second
deletion throws. -/
theorem clearCache_payload_missing_throws :
    (clearCache { scenarioFs with cacheFile := none }).thrown = some .ENOENT ∧
    (clearCache { scenarioFs with cacheFile := none }).fs.expiryFile = some (.valid 3600000) ∧
    (clearCacheRoute { scenarioFs with cacheFile := none }).1 = .escaped .ENOENT ∧
    (clearCache { scenarioFs with expiryFile := none }).thrown = some .ENOENT :=
  ⟨rfl, rfl, rfl, rfl⟩

/-- C7, as stated, fails: with a token file on disk, `clearCache` followed by
`getNameList` with the remote service down resolves with `cached` false. -/
theorem clear_then_get_counterexample :
    ¬ (∀ (env : Env) (fs : Storage),
        fs.cacheFile ≠ none → fs.expiryFile ≠ none → env.jwtAuthorize = none →
        (∀ c i r, env.sheetsGet c i r = .failed) →
        (getNameList env (clearCache fs).fs).outcome = .resolved ⟨.arr [], true⟩) := by
  intro h
  have h1 := h (remoteDown 1800000) scenarioFs (by simp [scenarioFs]) (by simp [scenarioFs])
    rfl (fun _ _ _ => rfl)
  have hcode : (getNameList (remoteDown 1800000) (clearCache scenarioFs).fs).outcome =
      .resolved ⟨.arr [], false⟩ := rfl
  rw [hcode] at h1
  simp at h1

/-- C7, amended: from a state where both cache files exist, `clearCache`
returns without throwing and leaves both absent, and a following
`getNameList` with the remote service down (authorization exchange and every
ranged read failing) resolves with the empty roster: with `cached` true when
there is no token file, with `cached` false when a token file that parses is
on disk. -/
theorem clear_then_get_unreachable (env : Env) (fs : Storage)
    (hc : fs.cacheFile ≠ none) (he : fs.expiryFile ≠ none)
    (hj : env.jwtAuthorize = none) (hs : ∀ c i r, env.sheetsGet c i r = .failed) :
    (clearCache fs).thrown = none ∧
    (clearCache fs).fs.cacheFile = none ∧ (clearCache fs).fs.expiryFile = none ∧
    (fs.tokenFile = none →
      (getNameList env (clearCache fs).fs).outcome = .resolved ⟨.arr [], true⟩) ∧
    (∀ tok, fs.tokenFile = some (.valid tok) →
      (getNameList env (clearCache fs).fs).outcome = .resolved ⟨.arr [], false⟩) := by
  obtain ⟨p, hp⟩ := Option.ne_none_iff_exists'.1 hc
  obtain ⟨x, hx⟩ := Option.ne_none_iff_exists'.1 he
  have hclear : clearCache fs = ⟨{ fs with cacheFile := none, expiryFile := none }, none⟩ := by
    simp [clearCache, hp, hx]
  rw [hclear]
  refine ⟨rfl, rfl, rfl, ?_, ?_⟩
  · intro ht
    unfold getNameList
    cases hd : fs.tokenDir <;>
      simp [isExpired, loadCacheExpiry, authorize, ht, hj, hd, fromCache, loadCache]
  · intro tok ht
    unfold getNameList
    cases hd : fs.tokenDir <;>
      simp [isExpired, loadCacheExpiry, authorize, ht, hd, fetchGoogleSheet, hs]

/-- Witness of C7, amended: the scenario storage, with its token file. -/
theorem clear_then_get_unreachable_witness :
    (clearCache scenarioFs).thrown = none ∧
    (getNameList (remoteDown 1800000) (clearCache scenarioFs).fs).outcome =
      .resolved ⟨.arr [], false⟩ :=
  have h := clear_then_get_unreachable (remoteDown 1800000) scenarioFs
    (by simp [scenarioFs]) (by simp [scenarioFs]) rfl (fun _ _ _ => rfl)
  ⟨h.1, h.2.2.2.2 _ rfl⟩

/-- C8, as stated, fails: a row without a first value is not omitted, it
yields an `undefined` entry, so the result is longer than the sequence of the
specification. -/
theorem fetch_skips_rows_counterexample :
    ¬ (∀ (env : Env) (c : JwtClient) (i r : String) (fs : Storage) (rows : List (List String)),
        env.sheetsGet c i r = .ok (some rows) →
        (fetchGoogleSheet env c i r fs).outcome =
          .resolved ((specFirstColumn rows).map some)) := by
  intro h
  have h1 := h (remoteUp 5400000 [["Alice"], [], ["Bob"]]) ⟨.null⟩ "sheet" "Youth!A2:A"
    scenarioFs [["Alice"], [], ["Bob"]] rfl
  have hcode : (fetchGoogleSheet (remoteUp 5400000 [["Alice"], [], ["Bob"]]) ⟨.null⟩ "sheet"
      "Youth!A2:A" scenarioFs).outcome = .resolved [some "Alice", none, some "Bob"] := rfl
  rw [hcode] at h1
  simp [specFirstColumn] at h1

/-- C8, amended: for a successful remote read returning a non-empty list of
rows, `fetchGoogleSheet` resolves to the sequence holding, for every row in
row order, its first value, or `undefined` for a row without one; duplicates
are kept and the length is the number of rows. When every row has a first
value this is the sequence of the specification. -/
theorem fetch_maps_first_column (env : Env) (c : JwtClient) (i r : String) (fs : Storage)
    (rows : List (List String))
    (hget : env.sheetsGet c i r = .ok (some rows)) (hne : rows ≠ []) :
    (fetchGoogleSheet env c i r fs).outcome = .resolved (rows.map fun row => row.head?) ∧
    (rows.map fun row => row.head?).length = rows.length ∧
    ((∀ row ∈ rows, row ≠ []) →
      (fetchGoogleSheet env c i r fs).outcome =
        .resolved ((specFirstColumn rows).map some)) := by
  have hlen : rows.length ≠ 0 := by
    intro h0
    exact hne (List.length_eq_zero.1 h0)
  have hrun : (fetchGoogleSheet env c i r fs).outcome =
      .resolved (rows.map fun row => row.head?) := by
    simp [fetchGoogleSheet, hget, hlen]
  refine ⟨hrun, List.length_map _ _, ?_⟩
  intro hall
  rw [hrun]
  congr 1
  clear hrun hlen hne hget
  induction rows with
  | nil => rfl
  | cons row rest ih =>
    have hrest := ih (fun x hx => hall x (List.mem_cons_of_mem row hx))
    cases row with
    | nil => exact absurd rfl (hall [] (List.mem_cons_self [] rest))
    | cons a t =>
      have hstep : specFirstColumn ((a :: t) :: rest) = a :: specFirstColumn rest := rfl
      rw [hstep, List.map_cons, List.map_cons, hrest]
      rfl

/-- Witness of C8, amended: three rows, the second without a first value. -/
theorem fetch_maps_first_column_witness :
    (fetchGoogleSheet (remoteUp 5400000 [["Alice"], [], ["Alice"]]) ⟨.null⟩ "sheet"
      "Youth!A2:A" scenarioFs).outcome = .resolved [some "Alice", none, some "Alice"] :=
  (fetch_maps_first_column (remoteUp 5400000 [["Alice"], [], ["Alice"]]) ⟨.null⟩ "sheet"
    "Youth!A2:A" scenarioFs [["Alice"], [], ["Alice"]] rfl (by simp)).1

/-- C9, at the failing inputs: on an expired cache with a token file on disk,
when the ranged read succeeds with no rows, the promise of `getNameList` is
never settled (`fetchGoogleSheet` resolves only inside `if (rows.length)`);
when the result has no `values` field, or when the token file is not valid
JSON, a callback throws outside the promise and it is never settled either. -/
theorem getNameList_no_rows_never_settles :
    (getNameList (remoteUp 5400000 []) scenarioFs).outcome = .pending ∧
    (getNameList { remoteUp 5400000 [] with sheetsGet := fun _ _ _ => .ok none }
      scenarioFs).outcome = .crashed ∧
    (getNameList (remoteUp 5400000 [["Alice"]])
      { scenarioFs with tokenFile := some (.malformed "not json") }).outcome = .crashed :=
  ⟨rfl, rfl, rfl⟩

/-- C10, at the failing input: before the stored expiry, with a payload file
whose text is not valid JSON, the promise of `getNameList` is never settled:
`JSON.parse` throws inside the callback of `fs.readFile`, outside the promise,
so the handler that defaults to the empty roster is not reached. -/
theorem getNameList_fresh_payload_malformed_crashes :
    (getNameList (remoteDown 1800000)
      { scenarioFs with cacheFile := some (.malformed "not json") }).outcome = .crashed :=
  rfl

end HCAS
